import Mathlib

/-!
Verification of the single-file Telegram music-recognizer bot
(`telegram_music_recognizer_bot.py`) against its specification.

The pipeline is embedded shallowly:
* Python values passed around the Shazam response are modelled by `JVal`
  (JSON-like values) together with Python-semantics helpers
  (`pyTruthy`, dict `.get`, indexing, iteration, `str()`), each of which
  returns `Except PyErr _` exactly where the Python operation can raise.
* The I/O boundaries (file download, the ffmpeg subprocess, the
  recognition-engine call) are abstracted by an oracle `Env` recording the
  outcome each external call would produce; this mirrors the spec's stage
  contracts, which constrain only how the code reacts to those outcomes.
* `handle_msg` mirrors the handler line by line, producing a `Trace` of
  the observable effects: replies sent, stages reached, temporary-directory
  lifecycle, and whether an uncaught exception escaped the handler body.
-/

namespace ShazamBot

/-- Python exception classes that the handler's data-plumbing can raise. -/
inductive PyErr where
  | attrError
  | indexError
  | typeError
  | keyError
  deriving DecidableEq, Repr

/-- JSON-like Python values: the shape of the Shazam recognition response. -/
inductive JVal where
  | null
  | bool (b : Bool)
  | num (n : Int)
  | str (s : String)
  | arr (elems : List JVal)
  | obj (fields : List (String × JVal))
  deriving Repr

/-- `isinstance(v, dict)`. -/
def JVal.isObj : JVal → Bool
  | .obj _ => true
  | _ => false

/-- `isinstance(v, list)`. -/
def JVal.isArr : JVal → Bool
  | .arr _ => true
  | _ => false

/-- Python truthiness (`bool(v)`): `None`, `False`, `0`, `""`, `[]`, `{}`
are falsy, everything else truthy. -/
def pyTruthy : JVal → Bool
  | .null => false
  | .bool b => b
  | .num n => n != 0
  | .str s => s != ""
  | .arr xs => !xs.isEmpty
  | .obj fs => !fs.isEmpty

/-- Python `a or b` for the values flowing through the handler:
`b` when `a` is falsy, else `a`. -/
def pyOr (a b : JVal) : JVal :=
  if pyTruthy a then a else b

/-- First-match lookup in a dict's field list; `none` when the key is absent. -/
def dictFind : List (String × JVal) → String → Option JVal
  | [], _ => none
  | (k2, v) :: rest, k => if k2 = k then some v else dictFind rest k

/-- Python `d.get(k)` on a dict: the value, or `None` when absent. -/
def dictGet (fs : List (String × JVal)) (k : String) : JVal :=
  (dictFind fs k).getD .null

/-- Python `d.get(k, dflt)` on a dict: the value (even `None`) when the
key is present, otherwise the default. -/
def dictGetD (fs : List (String × JVal)) (k : String) (dflt : JVal) : JVal :=
  (dictFind fs k).getD dflt

/-- Python `v.get(k)`: raises `AttributeError` unless `v` is a dict. -/
def jGet (v : JVal) (k : String) : Except PyErr JVal :=
  match v with
  | .obj fs => .ok (dictGet fs k)
  | _ => .error .attrError

/-- Python `v.get(k, dflt)`: raises `AttributeError` unless `v` is a dict. -/
def jGetD (v : JVal) (k : String) (dflt : JVal) : Except PyErr JVal :=
  match v with
  | .obj fs => .ok (dictGetD fs k dflt)
  | _ => .error .attrError

/-- Python `v[0]`: list head (IndexError on an empty list), first character
of a string, KeyError on a dict with string keys, TypeError otherwise. -/
def jIndex0 (v : JVal) : Except PyErr JVal :=
  match v with
  | .arr [] => .error .indexError
  | .arr (x :: _) => .ok x
  | .str s =>
      match s.data with
      | [] => .error .indexError
      | c :: _ => .ok (.str (String.mk [c]))
  | .obj _ => .error .keyError
  | _ => .error .typeError

/-- Python `for x in v`: a list yields its elements, a dict its keys,
a string its characters; other values raise TypeError. -/
def pyIter (v : JVal) : Except PyErr (List JVal) :=
  match v with
  | .arr xs => .ok xs
  | .obj fs => .ok (fs.map fun kv => .str kv.1)
  | .str s => .ok (s.data.map fun c => .str (String.mk [c]))
  | _ => .error .typeError

/-- Python `repr(v)` (used by `str()` on containers). -/
def pyRepr : JVal → String
  | .null => "None"
  | .bool true => "True"
  | .bool false => "False"
  | .num n => toString n
  | .str s => "'" ++ s ++ "'"
  | .arr xs => "[" ++ String.intercalate ", "
      (xs.attach.map fun x => pyRepr x.1) ++ "]"
  | .obj fs => "\x7b" ++ String.intercalate ", "
      (fs.attach.map fun kv => "'" ++ kv.1.1 ++ "': " ++ pyRepr kv.1.2) ++ "\x7d"
decreasing_by
  · obtain ⟨x, hx⟩ := x
    have h1 := List.sizeOf_lt_of_mem hx
    simp only [JVal.arr.sizeOf_spec]
    omega
  · obtain ⟨⟨k, v⟩, hkv⟩ := kv
    have h1 := List.sizeOf_lt_of_mem hkv
    simp only [Prod.mk.sizeOf_spec] at h1
    simp only [JVal.obj.sizeOf_spec]
    omega

/-- Python `str(v)` as used by f-string interpolation. -/
def pyStr : JVal → String
  | .str s => s
  | v => pyRepr v

/-- Python `v == "lit"` for a string literal: true only for an equal string. -/
def jEqStr (v : JVal) (lit : String) : Bool :=
  match v with
  | .str s => s == lit
  | _ => false

/-! ## Fixed reply strings (verbatim from the source) -/

/-- Line 49: usage prompt when no attachment field is set. -/
def promptMsg : String := "ارسل ملف صوتي/فيديو او رسالة صوتية حتى اعرف اسم الاغنية."

/-- Line 62: reply when the download stage throws. -/
def downloadErrMsg : String := "خطأ بتنزيل الملف. حاول مرة ثانية."

/-- Line 68: reply when the transcode stage fails. -/
def transcodeErrMsg : String :=
  "ما اكدر احول الملف لصيغة يدعمها محرك التعرف. تأكد الملف صحيح أو اجرب صيغة ثانية."

/-- Line 94: fixed no-match reply. -/
def noMatchMsg : String :=
  "ماكدر اتعرف على الاغنية. جرب صوت أو مقطع أطول أو استعمل خدمة ثانية (ACRCloud / Audd)."

/-- Line 86: the text prepended to the youtube URI in `more`. -/
def ytPre : String := "\nرابط يوتيوب ممكن: "

/-- Line 91: the first fragment of the success reply. -/
def replyHead : String := "ممكن هذي الأغنية:\n- العنوان: "

/-- Line 91: the fragment between title and artist in the success reply. -/
def replyMid : String := "\n- الفنان: "

/-! ## Response formatter (lines 74-92) -/

/-- Inner loop of lines 84-87: scan a hub's providers for the first
`"type" == "youtube"` entry; on it, build `more` from
`p.get('actions', [{}])[0].get('uri', '')` and break.  Returns the
loop-carried `more` (`""` when the loop completes without a match). -/
def scanProviders : List JVal → Except PyErr String
  | [] => .ok ""
  | p :: rest =>
    match jGet p "type" with
    | .error e => .error e
    | .ok t =>
      if jEqStr t "youtube" then
        match jGetD p "actions" (.arr [.obj []]) with
        | .error e => .error e
        | .ok actions =>
          match jIndex0 actions with
          | .error e => .error e
          | .ok a0 =>
            match jGetD a0 "uri" (.str "") with
            | .error e => .error e
            | .ok uri => .ok (ytPre ++ pyStr uri)
      else scanProviders rest

/-- Lines 82-87 for one section's hub: when `hub and isinstance(hub, dict)`,
iterate `providers = hub.get("providers") or []` with the inner loop;
otherwise `more` stays `""`. -/
def hubScan (hub : JVal) : Except PyErr String :=
  if pyTruthy hub && hub.isObj then
    match jGet hub "providers" with
    | .error e => .error e
    | .ok pv =>
      match pyIter (pyOr pv (.arr [])) with
      | .error e => .error e
      | .ok ps => scanProviders ps
  else .ok ""

/-- Outer loop of lines 80-89: for each section take `hub = sec.get("hub")`,
run the hub scan; `if more: break` stops at the first qualifying hub. -/
def scanSections : List JVal → Except PyErr String
  | [] => .ok ""
  | sec :: rest =>
    match jGet sec "hub" with
    | .error e => .error e
    | .ok hub =>
      match hubScan hub with
      | .error e => .error e
      | .ok more => if more = "" then scanSections rest else .ok more

/-- Lines 77-89: `more` starts as `""` and the section loop runs only when
`isinstance(sections, list) and sections`. -/
def sectionsScan (sections : JVal) : Except PyErr String :=
  if sections.isArr && pyTruthy sections then
    match sections with
    | .arr secs => scanSections secs
    | _ => .ok ""
  else .ok ""

/-- Lines 75-91, the track-present branch of the formatter:
`title = track.get("title") or "---"`, same for subtitle, then the
sections scan, then the f-string reply.  Each `.get` raises unless its
receiver is a dict. -/
def format_track_reply (track : JVal) : Except PyErr String :=
  match jGet track "title" with
  | .error e => .error e
  | .ok titleV =>
    match jGet track "subtitle" with
    | .error e => .error e
    | .ok subtitleV =>
      match jGet track "sections" with
      | .error e => .error e
      | .ok sections =>
        match sectionsScan sections with
        | .error e => .error e
        | .ok more =>
          .ok (replyHead ++ pyStr (pyOr titleV (.str "---")) ++ replyMid
            ++ pyStr (pyOr subtitleV (.str "---")) ++ more)

/-! ## Message and attachment model (intake, lines 28-50) -/

/-- A Telegram attachment as the handler reads it: the unique file id and,
for audio/document, an optional original file name. -/
structure Attachment where
  file_unique_id : String
  file_name : Option String
  deriving DecidableEq, Repr

/-- The five attachment fields the handler inspects, in source order. -/
structure Message where
  voice : Option Attachment
  audio : Option Attachment
  video : Option Attachment
  document : Option Attachment
  video_note : Option Attachment
  deriving DecidableEq, Repr

/-- The attachment kind the `if`/`elif` chain selects. -/
inductive AttKind where
  | voice
  | audio
  | video
  | document
  | video_note
  deriving DecidableEq, Repr

/-- Python `a or b` on an optional string (`None` and `""` are falsy). -/
def pyOrStr (a : Option String) (b : String) : String :=
  match a with
  | some s => if s = "" then b else s
  | none => b

/-- Lines 33-50: the `if`/`elif` chain over the five attachment fields.
Returns the selected kind, the attachment, and the `file_name_hint`,
or `none` when no field is populated. -/
def resolveAttachment (msg : Message) : Option (AttKind × Attachment × String) :=
  match msg.voice with
  | some v => some (.voice, v, "voice_" ++ v.file_unique_id ++ ".ogg")
  | none =>
    match msg.audio with
    | some a => some (.audio, a, pyOrStr a.file_name ("audio_" ++ a.file_unique_id))
    | none =>
      match msg.video with
      | some v => some (.video, v, "video_" ++ v.file_unique_id ++ ".mp4")
      | none =>
        match msg.document with
        | some d => some (.document, d, pyOrStr d.file_name ("doc_" ++ d.file_unique_id))
        | none =>
          match msg.video_note with
          | some v => some (.video_note, v, "vnote_" ++ v.file_unique_id ++ ".mp4")
          | none => none

/-! ## External-call oracle and the two helper coroutines -/

/-- Outcomes of the three external boundaries for one request:
whether `download_to_drive` raises, whether launching/awaiting the ffmpeg
subprocess raises, the subprocess exit status (recorded because the spec
claims it is ignored), whether the output wav exists afterwards, whether
`shazam.recognize_song` raises, and the response it returns otherwise. -/
structure Env where
  downloadOk : Bool
  ffmpegRaises : Bool
  ffmpegExit : Int
  wavExists : Bool
  shazamRaises : Bool
  shazamResult : JVal

/-- Line 24, `convert_to_wav`: run ffmpeg with stdout/stderr discarded and
return `output_path.exists()`; any exception from the subprocess invocation
is caught and yields `False`.  The exit status (`env.ffmpegExit`) is never
read. -/
def convert_to_wav (env : Env) : Bool :=
  if env.ffmpegRaises then false else env.wavExists

/-- Line 26, `recognize_with_shazam`: submit the wav bytes; any exception
from `recognize_song` is caught and yields `{}`. -/
def recognize_with_shazam (env : Env) : JVal :=
  if env.shazamRaises then .obj [] else env.shazamResult

/-! ## The handler (lines 28-94) -/

/-- Observable outcome of the body of the `with TemporaryDirectory()` block
(lines 55-94): replies sent inside it, which stages were attempted, and the
exception, if any, escaping the block. -/
structure BodyResult where
  replies : List String
  downloadRan : Bool
  transcodeRan : Bool
  recognitionRan : Bool
  err : Option PyErr
  deriving DecidableEq, Repr

/-- Line 72:
`track = result.get("track") if isinstance(result, dict) else None`. -/
def extractTrack (result : JVal) : JVal :=
  match result with
  | .obj fs => dictGet fs "track"
  | _ => .null

/-- Lines 55-94: download (lines 59-64, abort with `downloadErrMsg` on an
exception), transcode (lines 66-69, abort with `transcodeErrMsg` unless
`convert_to_wav` returns true), recognition (line 71), track extraction
(line 72), then either the formatter branch or the fixed no-match reply. -/
def handle_body (env : Env) : BodyResult :=
  if !env.downloadOk then
    ⟨[downloadErrMsg], true, false, false, none⟩
  else if !convert_to_wav env then
    ⟨[transcodeErrMsg], true, true, false, none⟩
  else
    let track := extractTrack (recognize_with_shazam env)
    if pyTruthy track then
      match format_track_reply track with
      | .ok r => ⟨[r], true, true, true, none⟩
      | .error e => ⟨[], true, true, true, some e⟩
    else
      ⟨[noMatchMsg], true, true, true, none⟩

/-- Everything observable about one invocation of `handle_msg`. -/
structure Trace where
  typingSent : Bool
  tmpdirCreated : Bool
  tmpdirRemoved : Bool
  replies : List String
  downloadRan : Bool
  transcodeRan : Bool
  recognitionRan : Bool
  err : Option PyErr
  deriving DecidableEq, Repr

/-- Line 28 onwards, `handle_msg`: return silently when `update.message` is
absent; reply with the usage prompt when no attachment field is set;
otherwise send "typing", enter `with tempfile.TemporaryDirectory()` and run
the body.  The `with` statement removes the directory on every exit from
the block — normal completion, early `return`, or a raised exception — so
`tmpdirRemoved` is set whenever `tmpdirCreated` is. -/
def handle_msg (update : Option Message) (env : Env) : Trace :=
  match update with
  | none => ⟨false, false, false, [], false, false, false, none⟩
  | some msg =>
    match resolveAttachment msg with
    | none => ⟨false, false, false, [promptMsg], false, false, false, none⟩
    | some _ =>
      let b := handle_body env
      ⟨true, true, true, b.replies, b.downloadRan, b.transcodeRan,
        b.recognitionRan, b.err⟩

/-! ## Concrete values and well-formedness classes used by the theorems -/

/-- A track record with the given title, subtitle, and sections list. -/
def mkTrack (title subtitle : String) (secs : List JVal) : JVal :=
  .obj [("title", .str title), ("subtitle", .str subtitle), ("sections", .arr secs)]

/-- A section whose hub has one youtube provider whose first action has
URI `u`. -/
def ytSection (u : String) : JVal :=
  .obj [("hub", .obj [("providers", .arr
    [.obj [("type", .str "youtube"), ("actions", .arr [.obj [("uri", .str u)]])]])])]

/-- A track whose first hub's youtube provider carries `"actions": []` —
well-formed JSON that line 86 (`p.get('actions', [{}])[0]`) cannot handle. -/
def emptyActionsTrack : JVal :=
  .obj [("title", .str "T"), ("subtitle", .str "S"),
    ("sections", .arr [.obj [("hub", .obj [("providers", .arr
      [.obj [("type", .str "youtube"), ("actions", .arr [])]])])]])]

/-- A message carrying only a voice attachment. -/
def msgVoice : Message := ⟨some ⟨"v1", none⟩, none, none, none, none⟩

/-- A provider the scan of lines 84-87 can process without raising:
a dict whose `"actions"`, when the key is present, is a nonempty list
with a dict first element. -/
def wfProvider (p : JVal) : Bool :=
  match p with
  | .obj fs =>
    match dictFind fs "actions" with
    | none => true
    | some (.arr (a0 :: _)) => a0.isObj
    | some _ => false
  | _ => false

/-- A hub the scan can process without raising: either one the
`hub and isinstance(hub, dict)` guard skips, or one whose
`providers or []` is a list of processable providers. -/
def wfHub (hub : JVal) : Bool :=
  match hub with
  | .obj hfs =>
    if hfs.isEmpty then true
    else
      match pyOr (dictGet hfs "providers") (.arr []) with
      | .arr ps => ps.all wfProvider
      | _ => false
  | _ => true

/-- A section the scan can process without raising: a dict with a
processable hub. -/
def wfSection (sec : JVal) : Bool :=
  match sec with
  | .obj fs => wfHub (dictGet fs "hub")
  | _ => false

/-- A track the formatter can process without raising: a dict whose
`"sections"`, when it is a list, contains only processable sections. -/
def wfTrack (t : JVal) : Bool :=
  match t with
  | .obj fs =>
    match dictGet fs "sections" with
    | .arr secs => secs.all wfSection
    | _ => true
  | _ => false

/-! ## Helper lemmas -/

theorem append_ne_empty (a b : String) (h : a ≠ "") : a ++ b ≠ "" := by
  intro hc
  apply h
  have hd := congrArg String.data hc
  rw [String.data_append] at hd
  rcases List.append_eq_nil.mp hd with ⟨h1, _⟩
  exact String.ext (by rw [h1])

theorem scanSections_skip (a b : List JVal) (h : scanSections a = .ok "") :
    scanSections (a ++ b) = scanSections b := by
  induction a with
  | nil => rfl
  | cons sec rest ih =>
    rw [List.cons_append]
    simp only [scanSections] at h ⊢
    cases hg : jGet sec "hub" with
    | error e => rw [hg] at h; simp at h
    | ok hub =>
      simp only [hg] at h ⊢
      cases hh : hubScan hub with
      | error e => rw [hh] at h; simp at h
      | ok more =>
        simp only [hh] at h ⊢
        by_cases hm : more = ""
        · rw [if_pos hm] at h ⊢
          exact ih h
        · rw [if_neg hm] at h
          simp only [Except.ok.injEq] at h
          exact absurd h hm

theorem scanSections_yt (u : String) (suf : List JVal) :
    scanSections (ytSection u :: suf) = .ok (ytPre ++ u) := by
  have hne : ytPre ++ u ≠ "" := append_ne_empty _ _ (by decide)
  have h1 : scanSections (ytSection u :: suf) =
      if (ytPre ++ u) = "" then scanSections suf else .ok (ytPre ++ u) := rfl
  rw [h1, if_neg hne]

theorem scanProviders_wf (ps : List JVal) (h : ps.all wfProvider = true) :
    ∃ m, scanProviders ps = .ok m := by
  induction ps with
  | nil => exact ⟨"", rfl⟩
  | cons p rest ih =>
    rw [List.all_cons, Bool.and_eq_true] at h
    obtain ⟨hp, hrest⟩ := h
    cases p with
    | obj fs =>
      simp only [scanProviders, jGet]
      by_cases hy : jEqStr (dictGet fs "type") "youtube"
      · rw [if_pos hy]
        simp only [wfProvider] at hp
        cases hf : dictFind fs "actions" with
        | none =>
          rw [hf] at hp
          simp [jGetD, dictGetD, hf, jIndex0]
        | some v =>
          rw [hf] at hp
          cases v with
          | arr elems =>
            cases elems with
            | nil => simp at hp
            | cons a0 arest =>
              cases a0 with
              | obj afs => simp [jGetD, dictGetD, hf, jIndex0]
              | _ => simp [JVal.isObj] at hp
          | _ => simp at hp
      · rw [if_neg hy]
        exact ih hrest
    | _ => simp [wfProvider] at hp

theorem hubScan_wf (hub : JVal) (h : wfHub hub = true) :
    ∃ m, hubScan hub = .ok m := by
  cases hub with
  | obj hfs =>
    by_cases he : hfs.isEmpty
    · exact ⟨"", by simp [hubScan, pyTruthy, he]⟩
    · simp only [wfHub, if_neg he] at h
      cases hpv : pyOr (dictGet hfs "providers") (.arr []) with
      | arr ps =>
        rw [hpv] at h
        obtain ⟨m, hm⟩ := scanProviders_wf ps h
        exact ⟨m, by simp [hubScan, pyTruthy, he, JVal.isObj, jGet, hpv, pyIter, hm]⟩
      | null => rw [hpv] at h; simp at h
      | bool b => rw [hpv] at h; simp at h
      | num n => rw [hpv] at h; simp at h
      | str s => rw [hpv] at h; simp at h
      | obj fs2 => rw [hpv] at h; simp at h
  | null => exact ⟨"", rfl⟩
  | bool b => exact ⟨"", by cases b <;> rfl⟩
  | num n => exact ⟨"", by simp [hubScan, JVal.isObj]⟩
  | str s => exact ⟨"", by simp [hubScan, JVal.isObj]⟩
  | arr xs => exact ⟨"", by simp [hubScan, JVal.isObj]⟩

theorem scanSections_wf (secs : List JVal) (h : secs.all wfSection = true) :
    ∃ m, scanSections secs = .ok m := by
  induction secs with
  | nil => exact ⟨"", rfl⟩
  | cons sec rest ih =>
    rw [List.all_cons, Bool.and_eq_true] at h
    obtain ⟨hs, hrest⟩ := h
    obtain ⟨mr, hmr⟩ := ih hrest
    cases sec with
    | obj fs =>
      simp only [scanSections, jGet]
      obtain ⟨mh, hmh⟩ := hubScan_wf (dictGet fs "hub") (by simpa [wfSection] using hs)
      simp only [hmh]
      by_cases hm : mh = ""
      · rw [if_pos hm]
        exact ⟨mr, hmr⟩
      · rw [if_neg hm]
        exact ⟨mh, rfl⟩
    | _ => simp [wfSection] at hs

/-! ## The claims -/

/-- C1: the transcode stage's success is determined solely by whether the
output file exists after the subprocess finishes — the file existing means
success even under a nonzero exit status, the file missing means failure
even under a zero exit status (the exit status is never read), and an
exception while invoking the subprocess is reported as failure. -/
theorem C1_transcode_success_by_existence (env : Env) :
    (env.ffmpegRaises = false → convert_to_wav env = env.wavExists) ∧
    (env.ffmpegRaises = true → convert_to_wav env = false) ∧
    (∀ c : Int, convert_to_wav (Env.mk env.downloadOk env.ffmpegRaises c
      env.wavExists env.shazamRaises env.shazamResult) = convert_to_wav env) := by
  obtain ⟨d, fr, fe, w, sr, s⟩ := env
  cases fr <;> simp [convert_to_wav]

theorem C1_witness :
    convert_to_wav (Env.mk true false 1 true false .null) = true ∧
    convert_to_wav (Env.mk true false 0 false false .null) = false :=
  ⟨((C1_transcode_success_by_existence (Env.mk true false 1 true false .null)).1 rfl).trans
      rfl,
    ((C1_transcode_success_by_existence (Env.mk true false 0 false false .null)).1 rfl).trans
      rfl⟩

/-- C2: an exception from the recognition engine is caught and turned into
`{}`; and for a request reaching the recognition stage, the three cases —
engine exception, response `{}`, and response with a null `"track"` —
all produce the identical fixed no-match reply, with no exception escaping
the handler. -/
theorem C2_recognition_failures_collapse (msg : Message) (env : Env)
    (sel : AttKind × Attachment × String)
    (hres : resolveAttachment msg = some sel)
    (hdl : env.downloadOk = true) (hff : env.ffmpegRaises = false)
    (hwav : env.wavExists = true)
    (hsz : env.shazamRaises = true ∨ env.shazamResult = .obj [] ∨
      env.shazamResult = .obj [("track", .null)]) :
    (∀ e2 : Env, e2.shazamRaises = true → recognize_with_shazam e2 = .obj []) ∧
    (handle_msg (some msg) env).replies = [noMatchMsg] ∧
    (handle_msg (some msg) env).err = none := by
  refine ⟨fun e2 h2 => by simp [recognize_with_shazam, h2], ?_⟩
  rcases hsz with h | h | h <;> cases hr : env.shazamRaises <;>
    simp_all [handle_msg, hres, handle_body, convert_to_wav,
      recognize_with_shazam, extractTrack, dictGet, dictFind, pyTruthy]

theorem C2_witness :
    (handle_msg (some msgVoice) (Env.mk true false 0 true true .null)).replies =
      [noMatchMsg] ∧
    (handle_msg (some msgVoice) (Env.mk true false 0 true true .null)).err = none :=
  (C2_recognition_failures_collapse msgVoice _ _ rfl rfl rfl rfl (Or.inl rfl)).2

/-- C3 (counterexample): the formatter does have a failure mode.  On a track
whose first hub has a youtube provider with `"actions": []`, line 86's
`p.get('actions', [{}])[0]` raises `IndexError`; run through the handler,
the exception escapes and no reply at all is sent. -/
theorem C3_counterexample :
    format_track_reply emptyActionsTrack = .error .indexError ∧
    (handle_msg (some msgVoice)
        (Env.mk true false 0 true false (.obj [("track", emptyActionsTrack)]))).err =
      some .indexError ∧
    (handle_msg (some msgVoice)
        (Env.mk true false 0 true false (.obj [("track", emptyActionsTrack)]))).replies =
      [] :=
  ⟨rfl, rfl, rfl⟩

/-- C3 (amended): the formatter produces a textual reply without raising
for every track in the well-formed class `wfTrack` — every section a dict,
every scanned hub's providers dicts, and a provider's `"actions"`, when the
key is present, a nonempty list with a dict first element.  Outside that
class it can raise, as the counterexample shows; the no-track branch always
sends the fixed no-match reply. -/
theorem C3_formatter_total_on_wf (t : JVal) (h : wfTrack t = true) :
    (∃ r, format_track_reply t = .ok r) ∧
    (∀ env : Env, env.downloadOk = true → convert_to_wav env = true →
      pyTruthy (extractTrack (recognize_with_shazam env)) = false →
      (handle_body env).replies = [noMatchMsg] ∧ (handle_body env).err = none) := by
  refine ⟨?_, fun env h1 h2 h3 => by simp [handle_body, h1, h2, h3]⟩
  cases t with
  | obj fs =>
    simp only [format_track_reply, jGet]
    have hsec : ∃ m, sectionsScan (dictGet fs "sections") = .ok m := by
      simp only [wfTrack] at h
      cases hs : dictGet fs "sections" with
      | arr secs =>
        rw [hs] at h
        cases secs with
        | nil => exact ⟨"", rfl⟩
        | cons s0 srest =>
          obtain ⟨m, hm⟩ := scanSections_wf _ h
          exact ⟨m, by simp [sectionsScan, pyTruthy, JVal.isArr, hm]⟩
      | null => exact ⟨"", rfl⟩
      | bool b => exact ⟨"", rfl⟩
      | num n => exact ⟨"", rfl⟩
      | str s => exact ⟨"", rfl⟩
      | obj fs2 => exact ⟨"", rfl⟩
    obtain ⟨m, hm⟩ := hsec
    simp only [hm]
    exact ⟨_, rfl⟩
  | null => simp [wfTrack] at h
  | bool b => simp [wfTrack] at h
  | num n => simp [wfTrack] at h
  | str s => simp [wfTrack] at h
  | arr xs => simp [wfTrack] at h

theorem C3_amended_witness :
    wfTrack (mkTrack "X" "Y" [ytSection "http://example/u"]) = true ∧
    (∃ r, format_track_reply (mkTrack "X" "Y" [ytSection "http://example/u"]) = .ok r) ∧
    (handle_body (Env.mk true false 0 true false (.obj []))).replies = [noMatchMsg] :=
  ⟨rfl, (C3_formatter_total_on_wf (mkTrack "X" "Y" [ytSection "http://example/u"]) rfl).1,
    ((C3_formatter_total_on_wf (mkTrack "X" "Y" [ytSection "http://example/u"]) rfl).2
      (Env.mk true false 0 true false (.obj [])) rfl rfl rfl).1⟩

/-- C4: the attachment resolver inspects the attachment fields in the fixed
priority order voice, audio, video, document, video-note; the first
populated field wins even when several are populated, and at most one
attachment (an `Option`-valued result) is ever selected per message. -/
theorem C4_attachment_priority (msg : Message) :
    (∀ v, msg.voice = some v →
      resolveAttachment msg =
        some (.voice, v, "voice_" ++ v.file_unique_id ++ ".ogg")) ∧
    (msg.voice = none → ∀ a, msg.audio = some a →
      resolveAttachment msg =
        some (.audio, a, pyOrStr a.file_name ("audio_" ++ a.file_unique_id))) ∧
    (msg.voice = none → msg.audio = none → ∀ v, msg.video = some v →
      resolveAttachment msg =
        some (.video, v, "video_" ++ v.file_unique_id ++ ".mp4")) ∧
    (msg.voice = none → msg.audio = none → msg.video = none →
      ∀ d, msg.document = some d →
      resolveAttachment msg =
        some (.document, d, pyOrStr d.file_name ("doc_" ++ d.file_unique_id))) ∧
    (msg.voice = none → msg.audio = none → msg.video = none →
      msg.document = none → ∀ v, msg.video_note = some v →
      resolveAttachment msg =
        some (.video_note, v, "vnote_" ++ v.file_unique_id ++ ".mp4")) := by
  refine ⟨?_, ?_, ?_, ?_, ?_⟩ <;> intros <;> simp_all [resolveAttachment]

theorem C4_witness :
    resolveAttachment
        (Message.mk (some ⟨"v1", none⟩) (some ⟨"a1", some "s.mp3"⟩) none none none) =
      some (.voice, ⟨"v1", none⟩, "voice_" ++ "v1" ++ ".ogg") :=
  (C4_attachment_priority _).1 _ rfl

/-- C5: a recognition response whose track has title `X`, subtitle `Y`, and
a sections list whose first qualifying hub is a youtube provider with URI
`u` yields the reply `replyHead ++ X ++ replyMid ++ Y` with the URI text
appended; the sections after the first qualifying hub (`suf`) are
arbitrary — the scan stops at the first match. -/
theorem C5_reply_title_artist_uri (X Y u : String) (pre suf : List JVal)
    (hX : X ≠ "") (hY : Y ≠ "") (hpre : scanSections pre = .ok "") :
    format_track_reply (mkTrack X Y (pre ++ ytSection u :: suf)) =
      .ok (replyHead ++ X ++ replyMid ++ Y ++ (ytPre ++ u)) := by
  have hne : (pre ++ ytSection u :: suf).isEmpty = false := by
    cases pre <;> rfl
  have h2 := scanSections_skip pre (ytSection u :: suf) hpre
  rw [scanSections_yt] at h2
  simp [mkTrack, format_track_reply, jGet, dictGet, dictFind, sectionsScan,
    JVal.isArr, pyTruthy, hne, h2, pyOr, pyStr, hX, hY]

theorem C5_witness :
    format_track_reply (mkTrack "X" "Y"
        ([] ++ ytSection "http://example/u" :: [ytSection "http://other/v"])) =
      .ok (replyHead ++ "X" ++ replyMid ++ "Y" ++ (ytPre ++ "http://example/u")) :=
  C5_reply_title_artist_uri "X" "Y" "http://example/u" [] [ytSection "http://other/v"]
    (by decide) (by decide) rfl

/-- C6: a message with no attachment field set gets exactly the fixed
usage-prompt reply, and no typing indicator, temporary directory,
download, transcode, or recognition stage happens. -/
theorem C6_no_attachment_prompt (msg : Message) (env : Env)
    (h : resolveAttachment msg = none) :
    handle_msg (some msg) env =
      ⟨false, false, false, [promptMsg], false, false, false, none⟩ := by
  simp [handle_msg, h]

theorem C6_witness :
    handle_msg (some (Message.mk none none none none none))
        (Env.mk true false 0 true false .null) =
      ⟨false, false, false, [promptMsg], false, false, false, none⟩ :=
  C6_no_attachment_prompt _ _ rfl

/-- C7: when the download stage throws, the reply is exactly the fixed
localized download-error message and neither the transcode nor the
recognition stage executes. -/
theorem C7_download_error_aborts (msg : Message) (env : Env)
    (sel : AttKind × Attachment × String)
    (hres : resolveAttachment msg = some sel)
    (hdl : env.downloadOk = false) :
    (handle_msg (some msg) env).replies = [downloadErrMsg] ∧
    (handle_msg (some msg) env).transcodeRan = false ∧
    (handle_msg (some msg) env).recognitionRan = false := by
  simp [handle_msg, hres, handle_body, hdl]

theorem C7_witness :
    (handle_msg (some msgVoice) (Env.mk false false 0 true false .null)).replies =
      [downloadErrMsg] ∧
    (handle_msg (some msgVoice) (Env.mk false false 0 true false .null)).transcodeRan =
      false ∧
    (handle_msg (some msgVoice) (Env.mk false false 0 true false .null)).recognitionRan =
      false :=
  C7_download_error_aborts msgVoice _ _ rfl rfl

/-- C8: when the track's title key is absent the reply renders `"---"` in
the title slot, and when the subtitle key is absent it renders `"---"` in
the artist slot — never a blank or a `None` token. -/
theorem C8_missing_field_placeholder (fs : List (String × JVal)) (r : String) :
    (dictFind fs "title" = none → format_track_reply (.obj fs) = .ok r →
      ∃ sub more, r = replyHead ++ "---" ++ replyMid ++ sub ++ more) ∧
    (dictFind fs "subtitle" = none → format_track_reply (.obj fs) = .ok r →
      ∃ ttl more, r = replyHead ++ ttl ++ replyMid ++ "---" ++ more) := by
  constructor
  · intro h1 h2
    have ht : dictGet fs "title" = .null := by simp [dictGet, h1]
    cases hm : sectionsScan (dictGet fs "sections") with
    | error e =>
      simp [format_track_reply, jGet, hm] at h2
    | ok more =>
      simp [format_track_reply, jGet, hm, ht, pyOr, pyTruthy, pyStr] at h2
      exact ⟨_, more, h2.symm⟩
  · intro h1 h2
    have hs : dictGet fs "subtitle" = .null := by simp [dictGet, h1]
    cases hm : sectionsScan (dictGet fs "sections") with
    | error e =>
      simp [format_track_reply, jGet, hm] at h2
    | ok more =>
      simp [format_track_reply, jGet, hm, hs, pyOr, pyTruthy, pyStr] at h2
      exact ⟨_, more, h2.symm⟩

theorem C8_witness :
    ∃ sub more, "ممكن هذي الأغنية:\n- العنوان: ---\n- الفنان: Art" =
      replyHead ++ "---" ++ replyMid ++ sub ++ more :=
  (C8_missing_field_placeholder [("subtitle", .str "Art")] _).1 rfl rfl

/-- C9: the request-scoped temporary directory never survives the request:
on every invocation, the directory was removed when the request finished
if and only if it was created, on every exit path (success, stage failure,
or an exception escaping the body). -/
theorem C9_tmpdir_always_removed (update : Option Message) (env : Env) :
    (handle_msg update env).tmpdirRemoved = (handle_msg update env).tmpdirCreated := by
  cases update with
  | none => rfl
  | some msg => cases h : resolveAttachment msg <;> simp [handle_msg, h]

/-- C10: an update whose message field is absent is dropped immediately:
no reply, no typing indicator, no temporary directory, and no pipeline
stage. -/
theorem C10_no_message_returns_silently (env : Env) :
    handle_msg none env = ⟨false, false, false, [], false, false, false, none⟩ := rfl

end ShazamBot
